import Mathlib

/-!
Verification of the ironclaw orchestrator against its natural-language
specification.  Each Rust function relevant to the claims is embedded as an
executable Lean definition translated from the source under
`src/orchestrator/src/`; theorems at the end of the file settle the claims.

Conventions of the embedding:
* Rust machine integers (`u8`, `u16`, `u32`, `u64`, `usize`) are modelled as
  `Nat`; the modelled code paths never reach the wrap-around range, and where
  an overflow could matter it is noted at the definition.
* fallible Rust functions returning `Result` are modelled with `Except`;
* effectful sub-operations (process spawning, iptables invocations, transport
  I/O, random number generation) are passed in as explicit outcome parameters,
  so every definition is a pure function of the program input plus the
  environment's responses;
* `f64` arithmetic on `Duration` values (retry delays) is idealized as exact
  rational arithmetic (`ℚ`): the algebraic shape of the computation is
  preserved while rounding error is ignored;
* Rust `char::is_alphanumeric` and `char::to_lowercase` are Unicode-aware;
  the model uses their ASCII restrictions (`Char.isAlphanum`,
  `Char.toLower`), which agree with Rust on every ASCII scalar value.
-/

namespace Ironclaw

/-! ## VM configuration — `src/orchestrator/src/vm/config.rs` -/

/-- `VmConfig` (config.rs lines 10-34).  Note that the struct has no
rootfs read-only field: its fields are exactly the ones below. -/
structure VmConfig where
  vm_id : String
  vcpu_count : Nat
  memory_mb : Nat
  kernel_path : String
  rootfs_path : String
  enable_networking : Bool
  vsock_path : Option String
deriving Repr, DecidableEq

/-- `impl Default for VmConfig` (config.rs lines 36-48). -/
def VmConfig.default : VmConfig :=
  ⟨"default", 1, 512, "/path/to/vmlinux.bin", "/path/to/rootfs.ext4", false, none⟩

/-- `VmConfig::new` (config.rs lines 52-62). -/
def VmConfig.new (vm_id : String) : VmConfig :=
  { VmConfig.default with
    vm_id := vm_id
    vsock_path := some ("/tmp/ironclaw/vsock/" ++ vm_id ++ ".sock") }

/-- `VmConfig::validate` (config.rs lines 65-82): the only checks performed
are vCPU count, memory floor, and the networking flag. -/
def VmConfig.validate (c : VmConfig) : Except String Unit :=
  if c.vcpu_count = 0 then
    Except.error "vCPU count must be > 0"
  else if c.memory_mb < 128 then
    Except.error "Memory must be at least 128 MB"
  else if c.enable_networking then
    Except.error "Networking MUST be disabled for security. enable_networking must be false."
  else
    Except.ok ()

/-! ## Rootfs signing — `src/orchestrator/src/vm/signature.rs` -/

/-- `RootfsSignature` (signature.rs lines 28-40). -/
structure RootfsSignature where
  signature : String
  key_id : String
  timestamp : Int
  checksum : String
deriving Repr, DecidableEq

/-- `verify_rootfs` (signature.rs lines 123-146).  `calculate_checksum`
(SHA-256 over the file bytes) is abstracted as the parameter `hash`; the file
contents are the byte list `rootfs`.  The source compares the recomputed
checksum with the recorded one and — as its own comments state ("For now,
return true if checksums match", "In production: verify actual Ed25519
signature") — returns `Ok(true)` without ever inspecting `sig.signature` or
`public_key_pem`. -/
def verify_rootfs (hash : List Nat → String) (rootfs : List Nat)
    (sig : RootfsSignature) (public_key_pem : String) : Except String Bool :=
  let _ := public_key_pem
  let current_checksum := hash rootfs
  if current_checksum ≠ sig.checksum then
    Except.ok false
  else
    Except.ok true

/-! ## Firewall — `src/orchestrator/src/vm/firewall.rs` -/

/-- Model of Rust `char::is_alphanumeric` (Unicode) restricted to ASCII,
where it coincides with `Char.isAlphanum`. -/
def rust_is_alphanumeric (c : Char) : Bool :=
  c.isAlphanum

/-- `FirewallManager` (firewall.rs lines 18-21). -/
structure FirewallManager where
  vm_id : String
  chain_name : String
deriving Repr, DecidableEq

/-- `FirewallManager::new` (firewall.rs lines 29-40): every character of the
vm id that is not alphanumeric is replaced by an underscore and the result is
appended to the fixed tag `IRONCLAW_`.  No truncation is performed. -/
def FirewallManager.new (vm_id : String) : FirewallManager :=
  let sanitized_id : List Char :=
    vm_id.toList.map (fun c => if rust_is_alphanumeric c then c else '_')
  let chain_name : String := ("IRONCLAW_".toList ++ sanitized_id).asString
  ⟨vm_id, chain_name⟩

/-! ## VM spawning — `src/orchestrator/src/vm/mod.rs` -/

/-- `FirecrackerProcess` (firecracker.rs), reduced to the fields `spawn_vm_with_config`
reads.  `spawn_time_ms` is an `f64` in the source, idealized as `ℚ`. -/
structure FirecrackerProcess where
  pid : Nat
  spawn_time_ms : ℚ
deriving Repr, DecidableEq

/-- `VmHandle` (mod.rs lines 35-41). -/
structure VmHandle where
  id : String
  process : Option FirecrackerProcess
  spawn_time_ms : ℚ
  config : VmConfig
  firewall_manager : Option FirewallManager
deriving Repr, DecidableEq

/-- `spawn_vm_with_config` (mod.rs lines 115-180).  The effectful
sub-operations are passed in as outcome parameters:
`configure_isolation_result` is what `firewall_manager.configure_isolation()`
returns, `verify_isolation_result` what `firewall_manager.verify_isolation()`
returns, and `start_firecracker_result` what `start_firecracker` returns.
The source matches on the first two results purely to log (on a configure
error it logs a warning and, per its comment, "Continue anyway"); neither
affects control flow.  The seccomp defaulting step of the source mutates a
`seccomp_filter` field that the `VmConfig` struct in config.rs does not
declare; it touches nothing this model tracks and is omitted. -/
def spawn_vm_with_config (task_id : String) (config : VmConfig)
    (configure_isolation_result : Except String Unit)
    (verify_isolation_result : Except String Bool)
    (start_firecracker_result : Except String FirecrackerProcess) :
    Except String VmHandle :=
  let firewall_manager := FirewallManager.new config.vm_id
  -- match on configure_isolation: both arms only log, then fall through
  let _ := match configure_isolation_result with
    | Except.ok _ => ()      -- tracing::info ("Firewall isolation configured")
    | Except.error _ => ()   -- tracing::warn, then "Continue anyway"
  -- match on verify_isolation: all three arms only log
  let _ := match verify_isolation_result with
    | Except.ok true => ()   -- tracing::info
    | Except.ok false => ()  -- tracing::debug
    | Except.error _ => ()   -- tracing::debug
  match start_firecracker_result with
  | Except.error e => Except.error e
  | Except.ok process =>
      Except.ok
        ⟨task_id, some process, process.spawn_time_ms, config, some firewall_manager⟩

/-! ## MCP protocol types — `src/orchestrator/src/mcp/protocol.rs` -/

/-- Minimal model of `serde_json::Value`.  Numbers are modelled as `Int`;
the claims never inspect numeric payloads. -/
inductive Json where
  | null
  | bool (b : Bool)
  | num (n : Int)
  | str (s : String)
  | arr (elems : List Json)
  | obj (fields : List (String × Json))
deriving Repr

/-- Model of `&value[key]` for `serde_json::Value`: looks the key up when the
value is an object and yields `Null` when the key is absent or the value is
not an object. -/
def Json.index (j : Json) (key : String) : Json :=
  match j with
  | Json.obj fields =>
      match fields.find? (fun p => p.1 == key) with
      | some p => p.2
      | none => Json.null
  | _ => Json.null

/-- Model of `serde_json::Value::as_str`. -/
def Json.as_str (j : Json) : Option String :=
  match j with
  | Json.str s => some s
  | _ => none

/-- Object field lookup returning `none` when the key is absent or the value
is not an object (used to model `serde` struct deserialization, which
distinguishes a missing field from a `null` one for non-`Value` field
types). -/
def Json.get_field (j : Json) (key : String) : Option Json :=
  match j with
  | Json.obj fields =>
      match fields.find? (fun p => p.1 == key) with
      | some p => some p.2
      | none => none
  | _ => none

/-- `McpError` (protocol.rs lines 160-170). -/
structure McpError where
  code : Int
  message : String
  data : Option Json
deriving Repr

/-- `McpError::new` (protocol.rs lines 174-180). -/
def McpError.new (code : Int) (message : String) : McpError :=
  ⟨code, message, none⟩

/-- `McpError::internal_error` (protocol.rs lines 213-215): code -32603. -/
def McpError.internal_error (message : String) : McpError :=
  McpError.new (-32603) message

/-- `McpResponse` (protocol.rs lines 101-116). -/
structure McpResponse where
  jsonrpc : String
  id : Nat
  result : Option Json
  error : Option McpError
deriving Repr

/-- `McpResponse::ok` (protocol.rs lines 120-127). -/
def McpResponse.ok (id : Nat) (result : Json) : McpResponse :=
  ⟨"2.0", id, some result, none⟩

/-- `McpResponse::err` (protocol.rs lines 130-137). -/
def McpResponse.err (id : Nat) (error : McpError) : McpResponse :=
  ⟨"2.0", id, none, some error⟩

/-- `McpResponse::is_success` (protocol.rs lines 140-142). -/
def McpResponse.is_success (r : McpResponse) : Bool :=
  r.result.isSome && r.error.isNone

/-- `McpResponse::into_result` (protocol.rs lines 145-153). -/
def McpResponse.into_result (r : McpResponse) : Except McpError Json :=
  match r.result, r.error with
  | some result, none => Except.ok result
  | none, some error => Except.error error
  | _, _ =>
      Except.error
        (McpError.internal_error "Invalid response: both result and error present")

/-- `ServerInfo` (protocol.rs lines 361-367). -/
structure ServerInfo where
  name : String
  version : String
deriving Repr

/-- Model of `serde_json::from_value::<ServerInfo>`: requires an object whose
`name` and `version` fields are strings. -/
def ServerInfo.from_json (j : Json) : Except String ServerInfo :=
  match (j.get_field "name").bind Json.as_str,
        (j.get_field "version").bind Json.as_str with
  | some n, some v => Except.ok ⟨n, v⟩
  | _, _ => Except.error "Failed to parse server info from initialize response"

/-- `ServerCapabilities` (protocol.rs lines 346-357). -/
structure ServerCapabilities where
  protocol_version : String
  capabilities : Json
  server_info : ServerInfo
deriving Repr

/-- `Tool` (protocol.rs lines 371-381): `input_schema` is serialized under the
key `inputSchema`. -/
structure Tool where
  name : String
  description : String
  input_schema : Json
deriving Repr

/-- Model of `serde_json::from_value::<Tool>` for one array element. -/
def Tool.from_json (j : Json) : Except String Tool :=
  match (j.get_field "name").bind Json.as_str,
        (j.get_field "description").bind Json.as_str,
        j.get_field "inputSchema" with
  | some n, some d, some schema => Except.ok ⟨n, d, schema⟩
  | _, _, _ => Except.error "Failed to parse tools from response"

/-- Model of `serde_json::from_value::<Vec<Tool>>`. -/
def decode_tools (j : Json) : Except String (List Tool) :=
  match j with
  | Json.arr elems => elems.mapM Tool.from_json
  | _ => Except.error "Failed to parse tools from response"

/-! ## MCP client — `src/orchestrator/src/mcp/client.rs` -/

/-- `ClientState` (client.rs lines 88-100). -/
inductive ClientState where
  | Created
  | Initializing
  | Ready
  | Disconnected
deriving Repr, DecidableEq

/-- `McpClient` fields (client.rs lines 66-84), minus the transport object,
which the operation models receive as a per-call script. -/
structure Client where
  next_id : Nat
  server_capabilities : Option ServerCapabilities
  tools : List Tool
  state : ClientState
deriving Repr

/-- `McpClient::new` (client.rs lines 122-130). -/
def Client.new : Client :=
  ⟨1, none, [], ClientState.Created⟩

/-- Transport I/O operations a call can perform, recorded in order. -/
inductive IoOp where
  | send
  | recv
deriving Repr, DecidableEq

/-- The transport's behaviour for one client call: the value of
`is_connected()`, the outcome of `send`, and the outcome of `recv`. -/
structure TransportScript where
  connected : Bool
  send_result : Except String Unit
  recv_result : Except String McpResponse
deriving Repr

/-- `McpClient::ensure_ready` (client.rs lines 383-402). -/
def Client.ensure_ready (c : Client) : Except String Unit :=
  match c.state with
  | ClientState.Created =>
      Except.error "Client not initialized. Call initialize() first."
  | ClientState.Initializing =>
      Except.error "Client is currently initializing"
  | ClientState.Ready => Except.ok ()
  | ClientState.Disconnected =>
      Except.error "Client is disconnected"

/-- `McpClient::initialize` (client.rs lines 157-244); the Lean definition is
named `initializeCall` because `initialize` is a Lean keyword.  Returns the call's
result, the updated client, and the list of transport I/O operations
performed.  The state check and the `is_connected` check precede the
assignment `state = Initializing`; every later exit leaves the state
`Initializing` except the final success path, which sets `Ready`. -/
def Client.initializeCall (c : Client) (t : TransportScript) :
    Except String Unit × Client × List IoOp :=
  if c.state ≠ ClientState.Created then
    (Except.error "Cannot initialize client: invalid state", c, [])
  else if !t.connected then
    (Except.error "Cannot initialize: transport is disconnected", c, [])
  else
    let c := { c with state := ClientState.Initializing }
    let c := { c with next_id := c.next_id + 1 }
    match t.send_result with
    | Except.error _ =>
        (Except.error "Failed to send initialize request", c, [IoOp.send])
    | Except.ok _ =>
        match t.recv_result with
        | Except.error _ =>
            (Except.error "Failed to receive initialize response", c,
              [IoOp.send, IoOp.recv])
        | Except.ok response =>
            if !response.is_success then
              match response.error with
              | none =>
                  (Except.error "Initialize failed with unknown error", c,
                    [IoOp.send, IoOp.recv])
              | some error =>
                  (Except.error ("Initialize failed: " ++ error.message), c,
                    [IoOp.send, IoOp.recv])
            else
              match response.result with
              | none =>
                  (Except.error "Initialize response missing result", c,
                    [IoOp.send, IoOp.recv])
              | some result =>
                  match ServerInfo.from_json (result.index "serverInfo") with
                  | Except.error e => (Except.error e, c, [IoOp.send, IoOp.recv])
                  | Except.ok server_info =>
                      match (result.index "protocolVersion").as_str with
                      | none =>
                          (Except.error
                              "Missing protocolVersion in initialize response",
                            c, [IoOp.send, IoOp.recv])
                      | some protocol_version =>
                          let c :=
                            { c with
                              server_capabilities :=
                                some ⟨protocol_version,
                                      result.index "capabilities", server_info⟩ }
                          let c := { c with state := ClientState.Ready }
                          (Except.ok (), c, [IoOp.send, IoOp.recv])

/-- `McpClient::list_tools` (client.rs lines 261-312).  The state is never
written: the only field updated is the `tools` cache on success. -/
def Client.list_tools (c : Client) (t : TransportScript) :
    Except String (List Tool) × Client × List IoOp :=
  match c.ensure_ready with
  | Except.error e => (Except.error e, c, [])
  | Except.ok _ =>
      let c := { c with next_id := c.next_id + 1 }
      match t.send_result with
      | Except.error _ =>
          (Except.error "Failed to send tools/list request", c, [IoOp.send])
      | Except.ok _ =>
          match t.recv_result with
          | Except.error _ =>
              (Except.error "Failed to receive tools/list response", c,
                [IoOp.send, IoOp.recv])
          | Except.ok response =>
              if !response.is_success then
                match response.error with
                | none =>
                    (Except.error "Tools/list failed with unknown error", c,
                      [IoOp.send, IoOp.recv])
                | some error =>
                    (Except.error ("Failed to list tools: " ++ error.message),
                      c, [IoOp.send, IoOp.recv])
              else
                match response.result with
                | none =>
                    (Except.error "Tools/list response missing result", c,
                      [IoOp.send, IoOp.recv])
                | some result =>
                    match decode_tools (result.index "tools") with
                    | Except.error e =>
                        (Except.error e, c, [IoOp.send, IoOp.recv])
                    | Except.ok tools =>
                        (Except.ok tools, { c with tools := tools },
                          [IoOp.send, IoOp.recv])

/-- `McpClient::call_tool` (client.rs lines 334-380).  No field other than
the request counter is written. -/
def Client.call_tool (c : Client) (name : String) (arguments : Json)
    (t : TransportScript) : Except String Json × Client × List IoOp :=
  let _ := name
  let _ := arguments
  match c.ensure_ready with
  | Except.error e => (Except.error e, c, [])
  | Except.ok _ =>
      let c := { c with next_id := c.next_id + 1 }
      match t.send_result with
      | Except.error _ =>
          (Except.error "Failed to send tools/call request", c, [IoOp.send])
      | Except.ok _ =>
          match t.recv_result with
          | Except.error _ =>
              (Except.error "Failed to receive tools/call response", c,
                [IoOp.send, IoOp.recv])
          | Except.ok response =>
              if !response.is_success then
                match response.error with
                | none =>
                    (Except.error "Tool call failed with unknown error", c,
                      [IoOp.send, IoOp.recv])
                | some error =>
                    (Except.error ("Tool call failed: " ++ error.message), c,
                      [IoOp.send, IoOp.recv])
              else
                match response.result with
                | none =>
                    (Except.error "Tool call response missing result", c,
                      [IoOp.send, IoOp.recv])
                | some result =>
                    (Except.ok result, c, [IoOp.send, IoOp.recv])

/-- The clients reachable from `McpClient::new` by any sequence of
`initialize`, `list_tools` and `call_tool` calls under arbitrary transport
behaviour. -/
inductive Reachable : Client → Prop where
  | new : Reachable Client.new
  | initializeCall (c : Client) (t : TransportScript) :
      Reachable c → Reachable (c.initializeCall t).2.1
  | list_tools (c : Client) (t : TransportScript) :
      Reachable c → Reachable (c.list_tools t).2.1
  | call_tool (c : Client) (name : String) (arguments : Json)
      (t : TransportScript) :
      Reachable c → Reachable (c.call_tool name arguments t).2.1

/-! ## Retry logic — `src/orchestrator/src/mcp/retry.rs` -/

/-- Substring test modelling Rust `str::contains` on the character list of
the haystack. -/
def contains_sub : List Char → List Char → Bool
  | [], pat => pat.isEmpty
  | c :: rest, pat => pat.isPrefixOf (c :: rest) || contains_sub rest pat

/-- Model of Rust `str::to_lowercase` restricted to ASCII, where it coincides
with mapping `Char.toLower` over the characters. -/
def rust_to_lowercase (s : String) : String :=
  ⟨s.data.map Char.toLower⟩

/-- Convenience: does the lowercased message contain the given pattern? -/
def lc_contains (msg pat : String) : Bool :=
  contains_sub (rust_to_lowercase msg).toList pat.toList

/-- `RetryConfig` (retry.rs lines 53-66).  Durations (`base_delay`,
`max_delay`) and the jitter factor are idealized as rationals. -/
structure RetryConfig where
  max_attempts : Nat
  base_delay : ℚ
  max_delay : ℚ
  jitter : ℚ
deriving Repr, DecidableEq

/-- `RetryConfig::default` (retry.rs lines 68-77): 3 attempts, 100 ms base,
5 s max, 10 percent jitter (expressed in milliseconds). -/
def RetryConfig.default : RetryConfig :=
  ⟨3, 100, 5000, 1/10⟩

/-- `RetryConfig::calculate_delay` (retry.rs lines 156-167).  The parameter
`r` is the value drawn from `rand::random::<f64>()`, which lies in [0, 1).
The source computes `exponential_delay = base_delay * 2.pow(attempt)`, a
jitter offset `(r - 0.5) * 2 * (exponential_delay * jitter)`, then adds the
ABSOLUTE VALUE of the offset (`jitter_offset.abs()`) to the uncapped
exponential delay and finally caps the sum at `max_delay`.
(`2_u32.pow(attempt)` would panic for `attempt ≥ 32`; callers only pass
loop indices below `max_attempts`.) -/
def RetryConfig.calculate_delay (c : RetryConfig) (attempt : Nat) (r : ℚ) : ℚ :=
  let exponential_delay := c.base_delay * 2 ^ attempt
  let jitter_range := exponential_delay * c.jitter
  let jitter_offset := (r - 1/2) * 2 * jitter_range
  let jittered_delay := exponential_delay + |jitter_offset|
  min jittered_delay c.max_delay

/-- `RetryConfig::should_retry_error` (retry.rs lines 180-206), a function of
the error's display string.  Checks run in source order: authentication
errors first, then invalid-without-timeout, then the transient keywords,
else no retry. -/
def RetryConfig.should_retry_error (error_msg : String) : Bool :=
  let m := (rust_to_lowercase error_msg).toList
  if contains_sub m "unauthorized".toList || contains_sub m "forbidden".toList then
    false
  else if contains_sub m "invalid".toList && !contains_sub m "timeout".toList then
    false
  else if contains_sub m "connection".toList
      || contains_sub m "timeout".toList
      || contains_sub m "timed out".toList
      || contains_sub m "network".toList
      || contains_sub m "dns".toList
      || contains_sub m "temporary".toList then
    true
  else
    false

/-- `should_retry_status` (retry.rs lines 291-305). -/
def should_retry_status (status : Nat) : Bool :=
  if status = 408 then true
  else if status = 429 then true
  else if 500 ≤ status ∧ status ≤ 599 then
    status ≠ 501 && status ≠ 505
  else false

/-- Loop body of `retry_with_backoff` (retry.rs lines 234-278).  `op i` is
the outcome of the i-th invocation of the operation (0-based), `rand i` the
random draw used for the sleep after attempt `i`.  `gas` counts the loop
iterations that remain (`max_attempts - attempt`); the `gas = 0` arm is the
source's fall-through `last_error.unwrap_or(...)` path, reachable only when
`max_attempts = 0`.  The returned list collects the delays slept, in
order. -/
def retry_loop {α : Type} (c : RetryConfig) (op : Nat → Except String α)
    (rand : Nat → ℚ) : Nat → Nat → Except String α × List ℚ
  | 0, _ => (Except.error "All retry attempts failed", [])
  | gas + 1, attempt =>
      match op attempt with
      | Except.ok result => (Except.ok result, [])
      | Except.error e =>
          if attempt + 1 < c.max_attempts && RetryConfig.should_retry_error e then
            let delay := c.calculate_delay attempt (rand attempt)
            let rest := retry_loop c op rand gas (attempt + 1)
            (rest.1, delay :: rest.2)
          else
            (Except.error e, [])

/-- `retry_with_backoff` (retry.rs lines 234-278): run the loop from attempt
0; also return the list of slept delays. -/
def retry_with_backoff {α : Type} (c : RetryConfig) (op : Nat → Except String α)
    (rand : Nat → ℚ) : Except String α × List ℚ :=
  retry_loop c op rand c.max_attempts 0

/-! ## Concrete instances used by the theorems below -/

/-- A transport script whose send and recv both succeed. -/
def demo_script : TransportScript :=
  ⟨true, Except.ok (), Except.ok (McpResponse.ok 1 Json.null)⟩

/-- A transport script whose recv yields a JSON-RPC error response (the
initialization-error code -32001 used by the client tests). -/
def err_response_script : TransportScript :=
  ⟨true, Except.ok (), Except.ok (McpResponse.err 1 (McpError.new (-32001) "Initialization failed"))⟩

/-- A client already in the Ready state. -/
def ready_client : Client :=
  ⟨1, none, [], ClientState.Ready⟩

/-- A retry configuration with jitter factor 1, base delay 100 and max delay
5000 (milliseconds). -/
def c9_config : RetryConfig :=
  ⟨3, 100, 5000, 1⟩

/-! ## Claims C1-C3 and C5: VM configuration, signing, spawning, firewall -/

/-- C1 counterexample: a configuration whose kernel path is missing (the
empty string) — and which carries no rootfs read-only marking, since the
struct has no such field — is nevertheless accepted by `validate`, so
`validate` does not reject every configuration with a missing required
path. -/
theorem validate_accepts_missing_kernel_path :
    VmConfig.validate ⟨"test-vm", 1, 512, "", "/path/to/rootfs.ext4", false, none⟩ =
      Except.ok () := rfl

/-- C1 (amended): `VmConfig::validate` accepts a configuration if and only if
its vCPU count is nonzero, its memory is at least 128 MiB, and networking is
disabled; in particular every accepted configuration has
`enable_networking = false`.  It performs no rootfs read-only check (the
struct has no such field) and no check that the kernel or rootfs paths are
present. -/
theorem validate_ok_iff (c : VmConfig) :
    c.validate = Except.ok () ↔
      (c.vcpu_count ≠ 0 ∧ 128 ≤ c.memory_mb ∧ c.enable_networking = false) := by
  unfold VmConfig.validate
  split_ifs with h1 h2 h3 <;> simp_all

/-- C2: `verify_rootfs` never inspects the Ed25519 signature or the public
key: its result is unchanged under any replacement of the signature string
and the key, and at a concrete input whose checksum matches but whose
signature field is garbage it still reports success — contradicting the
requirement that verification fail unless the signature also verifies. -/
theorem verify_rootfs_ignores_signature :
    (∀ (hash : List Nat → String) (rootfs : List Nat) (sig : RootfsSignature)
        (s₁ s₂ pk₁ pk₂ : String),
        verify_rootfs hash rootfs { sig with signature := s₁ } pk₁ =
          verify_rootfs hash rootfs { sig with signature := s₂ } pk₂) ∧
    verify_rootfs (fun _ => "c0ffee") [0, 1, 2]
        ⟨"garbage-not-an-ed25519-signature", "key-1", 0, "c0ffee"⟩
        "garbage-not-a-public-key" = Except.ok true := by
  refine ⟨fun hash rootfs sig s₁ s₂ pk₁ pk₂ => rfl, rfl⟩

/-- C3 counterexample: a spawn invocation in which `configure_isolation`
fails with the privilege error — and no degraded-mode opt-in exists anywhere
in the code — still returns a running `VmHandle` as soon as
`start_firecracker` succeeds. -/
theorem spawn_succeeds_despite_firewall_error :
    (spawn_vm_with_config "task-1" (VmConfig.new "task-1")
        (Except.error "Firewall configuration requires root privileges")
        (Except.ok false) (Except.ok ⟨1234, 110⟩)).isOk = true := rfl

/-- C3 (amended): when `configure_isolation` fails during spawn the code
logs a warning and continues unconditionally — there is no degraded-mode
opt-in — so the outcome of `spawn_vm_with_config` is entirely independent of
both firewall results and is a handle exactly when `start_firecracker`
succeeds. -/
theorem spawn_ignores_firewall_results (task : String) (cfg : VmConfig)
    (r₁ r₂ : Except String Unit) (v₁ v₂ : Except String Bool)
    (s : Except String FirecrackerProcess) :
    spawn_vm_with_config task cfg r₁ v₁ s = spawn_vm_with_config task cfg r₂ v₂ s ∧
    (spawn_vm_with_config task cfg r₁ v₁ s).isOk = s.isOk := by
  cases s <;> simp [spawn_vm_with_config, Except.isOk, Except.toBool]

/-- C5: for the 20-character VM id "abcdefghijklmnopqrst" the constructed
chain name has length 29, exceeding the 28-character packet-filter limit the
code's own property test states; `FirewallManager::new` never truncates. -/
theorem chain_name_exceeds_iptables_limit :
    (FirewallManager.new "abcdefghijklmnopqrst").chain_name.length = 29 ∧
    ¬((FirewallManager.new "abcdefghijklmnopqrst").chain_name.length ≤ 28) := by
  exact ⟨rfl, by decide⟩

/-! ## Claim C6: `McpResponse::into_result` -/

/-- C6: `into_result` yields the result exactly when `result` is present and
`error` absent, yields the carried error when `error` is present and
`result` absent, and maps a response carrying both to the
protocol-violation internal error rather than to a result. -/
theorem into_result_exact (r : McpResponse) :
    (∀ v, r.into_result = Except.ok v ↔ (r.result = some v ∧ r.error = none)) ∧
    (∀ e, r.result = none → r.error = some e → r.into_result = Except.error e) ∧
    (∀ v e, r.result = some v → r.error = some e →
        r.into_result =
          Except.error
            (McpError.internal_error
              "Invalid response: both result and error present")) := by
  obtain ⟨jsonrpc, id, result, error⟩ := r
  cases result <;> cases error <;>
    simp [McpResponse.into_result, eq_comm]

/-- C6 witness: a handcrafted response carrying both a result and an error
is mapped by `into_result` to the protocol-violation error. -/
theorem into_result_exact_witness :
    McpResponse.into_result ⟨"2.0", 1, some Json.null, some (McpError.new (-32000) "boom")⟩ =
      Except.error
        (McpError.internal_error "Invalid response: both result and error present") :=
  (into_result_exact ⟨"2.0", 1, some Json.null, some (McpError.new (-32000) "boom")⟩).2.2
    Json.null (McpError.new (-32000) "boom") rfl rfl

/-! ## Client state-machine lemmas -/

/-- When the client is not Ready, `list_tools` fails, performs no transport
I/O, and leaves the client untouched. -/
theorem list_tools_wrong_state (c : Client) (t : TransportScript)
    (h : c.state ≠ ClientState.Ready) :
    (c.list_tools t).1.isOk = false ∧ (c.list_tools t).2.2 = [] ∧
    (c.list_tools t).2.1 = c := by
  cases hs : c.state <;>
    simp_all [Client.list_tools, Client.ensure_ready, Except.isOk, Except.toBool]

/-- When the client is not Ready, `call_tool` fails, performs no transport
I/O, and leaves the client untouched. -/
theorem call_tool_wrong_state (c : Client) (name : String) (arguments : Json)
    (t : TransportScript) (h : c.state ≠ ClientState.Ready) :
    (c.call_tool name arguments t).1.isOk = false ∧
    (c.call_tool name arguments t).2.2 = [] ∧
    (c.call_tool name arguments t).2.1 = c := by
  cases hs : c.state <;>
    simp_all [Client.call_tool, Client.ensure_ready, Except.isOk, Except.toBool]

/-- When the client is not Created, `initialize` fails, performs no
transport I/O, and leaves the client untouched. -/
theorem initialize_wrong_state (c : Client) (t : TransportScript)
    (h : c.state ≠ ClientState.Created) :
    (c.initializeCall t).1.isOk = false ∧ (c.initializeCall t).2.2 = [] ∧
    (c.initializeCall t).2.1 = c := by
  simp [Client.initializeCall, h, Except.isOk, Except.toBool]

/-- A failed `initialize` from Created over a connected transport leaves the
state `Initializing`. -/
theorem initialize_failure_stays (c : Client) (t : TransportScript)
    (hst : c.state = ClientState.Created) (hconn : t.connected = true)
    (hfail : (c.initializeCall t).1.isOk = false) :
    (c.initializeCall t).2.1.state = ClientState.Initializing := by
  simp only [Client.initializeCall, hst, hconn] at hfail ⊢
  simp only [ne_eq, not_true_eq_false, if_false, Bool.not_true, ite_false] at hfail ⊢
  cases hsend : t.send_result with
  | error e => simp [hsend]
  | ok u =>
      cases hrecv : t.recv_result with
      | error e => simp [hsend, hrecv]
      | ok response =>
          simp only [hsend, hrecv] at hfail ⊢
          cases hsucc : response.is_success with
          | false =>
              cases herr : response.error <;> simp [hsucc, herr]
          | true =>
              cases hres : response.result with
              | none => simp [hsucc, hres]
              | some result =>
                  cases hinfo : ServerInfo.from_json (result.index "serverInfo") with
                  | error e => simp [hsucc, hres, hinfo]
                  | ok server_info =>
                      cases hpv : (result.index "protocolVersion").as_str with
                      | none => simp [hsucc, hres, hinfo, hpv]
                      | some pv =>
                          simp [hsucc, hres, hinfo, hpv, Except.isOk,
                            Except.toBool] at hfail

/-- The state after `initialize` is the old one, Initializing, or Ready. -/
theorem initialize_state_cases (c : Client) (t : TransportScript) :
    (c.initializeCall t).2.1.state = c.state ∨
    (c.initializeCall t).2.1.state = ClientState.Initializing ∨
    (c.initializeCall t).2.1.state = ClientState.Ready := by
  by_cases hst : c.state = ClientState.Created
  · cases hconn : t.connected with
    | false => left; simp [Client.initializeCall, hst, hconn]
    | true =>
        simp only [Client.initializeCall, hst, hconn]
        simp only [ne_eq, not_true_eq_false, if_false, Bool.not_true, ite_false]
        cases hsend : t.send_result with
        | error e => right; left; simp
        | ok u =>
            cases hrecv : t.recv_result with
            | error e => right; left; simp
            | ok response =>
                cases hsucc : response.is_success with
                | false => cases herr : response.error <;> (right; left; simp [hsucc, herr])
                | true =>
                    cases hres : response.result with
                    | none => right; left; simp [hsucc, hres]
                    | some result =>
                        cases hinfo : ServerInfo.from_json (result.index "serverInfo") with
                        | error e => right; left; simp [hsucc, hres, hinfo]
                        | ok server_info =>
                            cases hpv : (result.index "protocolVersion").as_str with
                            | none => right; left; simp [hsucc, hres, hinfo, hpv]
                            | some pv => right; right; simp [hsucc, hres, hinfo, hpv]
  · left
    simp [Client.initializeCall, hst]

/-- `list_tools` never writes the state field. -/
theorem list_tools_state_eq (c : Client) (t : TransportScript) :
    (c.list_tools t).2.1.state = c.state := by
  cases he : c.ensure_ready with
  | error e => simp [Client.list_tools, he]
  | ok u =>
      simp only [Client.list_tools, he]
      cases hsend : t.send_result with
      | error e => simp
      | ok v =>
          cases hrecv : t.recv_result with
          | error e => simp
          | ok response =>
              cases hsucc : response.is_success with
              | false => cases herr : response.error <;> simp [hsucc, herr]
              | true =>
                  cases hres : response.result with
                  | none => simp [hsucc, hres]
                  | some result =>
                      cases hdec : decode_tools (result.index "tools") <;>
                        simp [hsucc, hres, hdec]

/-- `call_tool` never writes the state field. -/
theorem call_tool_state_eq (c : Client) (name : String) (arguments : Json)
    (t : TransportScript) :
    (c.call_tool name arguments t).2.1.state = c.state := by
  cases he : c.ensure_ready with
  | error e => simp [Client.call_tool, he]
  | ok u =>
      simp only [Client.call_tool, he]
      cases hsend : t.send_result with
      | error e => simp
      | ok v =>
          cases hrecv : t.recv_result with
          | error e => simp
          | ok response =>
              cases hsucc : response.is_success with
              | false => cases herr : response.error <;> simp [hsucc, herr]
              | true => cases hres : response.result <;> simp [hsucc, hres]

/-! ## Claims C4, C7, C10: broker state machine -/

/-- C4 counterexample: when `initialize` on a fresh client receives a
JSON-RPC error response, the client's state afterwards is `Initializing`,
not `Disconnected` — the claimed transition to `Disconnected` does not
happen. -/
theorem initialize_error_response_not_disconnected :
    (Client.new.initializeCall err_response_script).2.1.state = ClientState.Initializing ∧
    (Client.new.initializeCall err_response_script).2.1.state ≠ ClientState.Disconnected :=
  ⟨rfl, by decide⟩

/-- C4 (amended): whenever `initialize` (run from the Created state over a
connected transport) observes a transport failure or an error response —
that is, whenever the call fails — the client's state becomes `Initializing`
(never Ready and never Disconnected), and every subsequent operation on that
client fails without performing any transport I/O.  (Errors during
Ready-state calls, by contrast, leave the state Ready.) -/
theorem initialize_failure_blocks_client (c : Client) (t t₂ : TransportScript)
    (name : String) (arguments : Json)
    (hst : c.state = ClientState.Created) (hconn : t.connected = true)
    (hfail : (c.initializeCall t).1.isOk = false) :
    (c.initializeCall t).2.1.state = ClientState.Initializing ∧
    (c.initializeCall t).2.1.state ≠ ClientState.Disconnected ∧
    (c.initializeCall t).2.1.state ≠ ClientState.Ready ∧
    ((c.initializeCall t).2.1.list_tools t₂).1.isOk = false ∧
    ((c.initializeCall t).2.1.list_tools t₂).2.2 = [] ∧
    ((c.initializeCall t).2.1.call_tool name arguments t₂).1.isOk = false ∧
    ((c.initializeCall t).2.1.call_tool name arguments t₂).2.2 = [] ∧
    ((c.initializeCall t).2.1.initializeCall t₂).1.isOk = false ∧
    ((c.initializeCall t).2.1.initializeCall t₂).2.2 = [] := by
  have hI := initialize_failure_stays c t hst hconn hfail
  have hlt := list_tools_wrong_state (c.initializeCall t).2.1 t₂ (by simp [hI])
  have hct := call_tool_wrong_state (c.initializeCall t).2.1 name arguments t₂ (by simp [hI])
  have hin := initialize_wrong_state (c.initializeCall t).2.1 t₂ (by simp [hI])
  exact ⟨hI, by simp [hI], by simp [hI], hlt.1, hlt.2.1, hct.1, hct.2.1, hin.1, hin.2.1⟩

/-- C4 witness: the amended theorem applied to a fresh client receiving the
-32001 error response. -/
theorem initialize_failure_blocks_client_witness :
    (Client.new.initializeCall err_response_script).2.1.state = ClientState.Initializing ∧
    (Client.new.initializeCall err_response_script).2.1.state ≠ ClientState.Disconnected ∧
    (Client.new.initializeCall err_response_script).2.1.state ≠ ClientState.Ready ∧
    ((Client.new.initializeCall err_response_script).2.1.list_tools demo_script).1.isOk = false ∧
    ((Client.new.initializeCall err_response_script).2.1.list_tools demo_script).2.2 = [] ∧
    ((Client.new.initializeCall err_response_script).2.1.call_tool "echo" Json.null demo_script).1.isOk = false ∧
    ((Client.new.initializeCall err_response_script).2.1.call_tool "echo" Json.null demo_script).2.2 = [] ∧
    ((Client.new.initializeCall err_response_script).2.1.initializeCall demo_script).1.isOk = false ∧
    ((Client.new.initializeCall err_response_script).2.1.initializeCall demo_script).2.2 = [] :=
  initialize_failure_blocks_client Client.new err_response_script demo_script
    "echo" Json.null rfl rfl (by decide)

/-- C7: a broker method invoked in a state where it is not legal fails and
performs no transport I/O: `list_tools` and `call_tool` fail without any
send or recv in every state other than Ready, and `initialize` fails without
any send or recv in every state other than Created (so a second `initialize`
after a successful one is rejected). -/
theorem wrong_state_no_io (c : Client) (t : TransportScript) (name : String)
    (arguments : Json) :
    (c.state ≠ ClientState.Ready →
        (c.list_tools t).1.isOk = false ∧ (c.list_tools t).2.2 = [] ∧
        (c.call_tool name arguments t).1.isOk = false ∧
        (c.call_tool name arguments t).2.2 = []) ∧
    (c.state ≠ ClientState.Created →
        (c.initializeCall t).1.isOk = false ∧ (c.initializeCall t).2.2 = []) := by
  constructor
  · intro h
    obtain ⟨h1, h2, _⟩ := list_tools_wrong_state c t h
    obtain ⟨h3, h4, _⟩ := call_tool_wrong_state c name arguments t h
    exact ⟨h1, h2, h3, h4⟩
  · intro h
    obtain ⟨h1, h2, _⟩ := initialize_wrong_state c t h
    exact ⟨h1, h2⟩

/-- C7 witness: a fresh (Created) client rejects `list_tools` and
`call_tool` with no I/O, and a Ready client rejects a second `initialize`
with no I/O. -/
theorem wrong_state_no_io_witness :
    ((Client.new.list_tools demo_script).1.isOk = false ∧
     (Client.new.list_tools demo_script).2.2 = [] ∧
     (Client.new.call_tool "echo" Json.null demo_script).1.isOk = false ∧
     (Client.new.call_tool "echo" Json.null demo_script).2.2 = []) ∧
    ((ready_client.initializeCall demo_script).1.isOk = false ∧
     (ready_client.initializeCall demo_script).2.2 = []) :=
  ⟨(wrong_state_no_io Client.new demo_script "echo" Json.null).1 (by decide),
   (wrong_state_no_io ready_client demo_script "echo" Json.null).2 (by decide)⟩

/-- C10: starting from `McpClient::new`, no sequence of `initialize`,
`list_tools` and `call_tool` calls ever assigns the state `Disconnected`:
every reachable client is in Created, Initializing or Ready (so the
Disconnected arm of `ensure_ready` is unreachable), and `list_tools` and
`call_tool` — in particular when their transport I/O fails in the Ready
state — leave the state unchanged. -/
theorem reachable_state_never_disconnected (c : Client) (h : Reachable c) :
    (c.state = ClientState.Created ∨ c.state = ClientState.Initializing ∨
     c.state = ClientState.Ready) ∧
    c.state ≠ ClientState.Disconnected ∧
    (∀ t, (c.list_tools t).2.1.state = c.state) ∧
    (∀ name arguments t, (c.call_tool name arguments t).2.1.state = c.state) := by
  have mem : c.state = ClientState.Created ∨ c.state = ClientState.Initializing ∨
      c.state = ClientState.Ready := by
    induction h with
    | new => left; rfl
    | initializeCall c' t _ ih =>
        rcases initialize_state_cases c' t with h1 | h1 | h1
        · rw [h1]; exact ih
        · right; left; exact h1
        · right; right; exact h1
    | list_tools c' t _ ih => rw [list_tools_state_eq]; exact ih
    | call_tool c' name arguments t _ ih => rw [call_tool_state_eq]; exact ih
  refine ⟨mem, ?_, fun t => list_tools_state_eq c t,
    fun name arguments t => call_tool_state_eq c name arguments t⟩
  rcases mem with h1 | h1 | h1 <;> simp [h1]

/-- C10 witness: the reachability invariant applied to the freshly created
client. -/
theorem reachable_state_never_disconnected_witness :
    Client.new.state ≠ ClientState.Disconnected ∧
    (Client.new.list_tools demo_script).2.1.state = Client.new.state :=
  ⟨(reachable_state_never_disconnected Client.new Reachable.new).2.1,
   (reachable_state_never_disconnected Client.new Reachable.new).2.2.1 demo_script⟩

/-! ## Claims C8, C9: retry classifier and delay calculator -/

/-- Propositional skeleton of the keyword decision list, settled by truth
table. -/
theorem classifier_bool : ∀ a b c d e f g h i : Bool,
    (if a || b then false
     else if c && !d then false
     else if e || d || f || g || h || i then true
     else false) = true ↔
    ((a = false ∧ b = false) ∧ ¬(c = true ∧ d = false) ∧
     (e = true ∨ d = true ∨ f = true ∨ g = true ∨ h = true ∨ i = true)) := by
  intro a b c d e f g h i
  cases a <;> cases b <;> cases c <;> cases d <;> cases e <;> cases f <;>
    cases g <;> cases h <;> cases i <;> decide

/-- C8: the retry classifier is a pure function of the error's lowercased
string form and matches the spec's table read as a priority-ordered decision
list: authentication keywords are never retryable, "invalid" without
"timeout" is not retryable, the six transient keywords are retryable, and
everything else is not; over HTTP statuses exactly 408, 429, and the 5xx
codes other than 501 and 505 are retryable. -/
theorem retry_classifier_spec :
    (∀ m₁ m₂ : String, rust_to_lowercase m₁ = rust_to_lowercase m₂ →
        RetryConfig.should_retry_error m₁ = RetryConfig.should_retry_error m₂) ∧
    (∀ msg : String,
        RetryConfig.should_retry_error msg = true ↔
          ((lc_contains msg "unauthorized" = false ∧
            lc_contains msg "forbidden" = false) ∧
           ¬(lc_contains msg "invalid" = true ∧ lc_contains msg "timeout" = false) ∧
           (lc_contains msg "connection" = true ∨ lc_contains msg "timeout" = true ∨
            lc_contains msg "timed out" = true ∨ lc_contains msg "network" = true ∨
            lc_contains msg "dns" = true ∨ lc_contains msg "temporary" = true))) ∧
    (∀ status : Nat,
        should_retry_status status = true ↔
          (status = 408 ∨ status = 429 ∨
           (500 ≤ status ∧ status ≤ 599 ∧ status ≠ 501 ∧ status ≠ 505))) := by
  refine ⟨?_, ?_, ?_⟩
  · intro m₁ m₂ h
    simp only [RetryConfig.should_retry_error, h]
  · intro msg
    simp only [RetryConfig.should_retry_error, lc_contains]
    exact classifier_bool _ _ _ _ _ _ _ _ _
  · intro status
    unfold should_retry_status
    split_ifs with h1 h2 h3 <;> simp_all

/-- C8 witness: the purity, keyword and status characterizations applied to
concrete inputs. -/
theorem retry_classifier_spec_witness :
    RetryConfig.should_retry_error "Connection refused" =
      RetryConfig.should_retry_error "connection refused" ∧
    RetryConfig.should_retry_error "connection refused" = true ∧
    should_retry_status 503 = true :=
  ⟨retry_classifier_spec.1 "Connection refused" "connection refused" (by decide),
   (retry_classifier_spec.2.1 "connection refused").mpr (by decide),
   (retry_classifier_spec.2.2 503).mpr (by decide)⟩

/-- C9 counterexample: with base delay 100, max delay 5000, jitter factor 1
and random draw 0 — where a symmetric jitter of magnitude
`jitter * min(base * 2^0, max_delay)` would yield
`min(100, 5000) + (2*0 - 1) * (1 * min(100, 5000)) = 0` — the code computes
200: it adds the absolute value of the jitter offset, so the jitter never
decreases the delay. -/
theorem calculate_delay_not_symmetric :
    c9_config.calculate_delay 0 0 = 200 ∧
    min (c9_config.base_delay * 2 ^ 0) c9_config.max_delay +
        (2 * 0 - 1) * (c9_config.jitter *
          min (c9_config.base_delay * 2 ^ 0) c9_config.max_delay) = 0 := by
  constructor <;> norm_num [RetryConfig.calculate_delay, c9_config]

/-- Every delay the retry loop sleeps is a value of `calculate_delay`. -/
theorem retry_loop_delay_mem {α : Type} (c : RetryConfig)
    (op : Nat → Except String α) (rand : Nat → ℚ) :
    ∀ (gas attempt : Nat) (d : ℚ), d ∈ (retry_loop c op rand gas attempt).2 →
      ∃ i, d = c.calculate_delay i (rand i) := by
  intro gas
  induction gas with
  | zero => intro attempt d hd; simp [retry_loop] at hd
  | succ g ih =>
      intro attempt d hd
      simp only [retry_loop] at hd
      cases hop : op attempt with
      | ok v => simp [hop] at hd
      | error e =>
          rw [hop] at hd
          by_cases hcond :
              (attempt + 1 < c.max_attempts && RetryConfig.should_retry_error e) = true
          · simp only [hcond, if_true] at hd
            rcases List.mem_cons.mp hd with h | h
            · exact ⟨attempt, h⟩
            · exact ih (attempt + 1) d h
          · simp [hcond] at hd

/-- C9 (amended): for every attempt `k` (0-based: the sleep before retry
`k+1`) the computed delay is at least 0, at most `max_delay`, and at least
the uncapped exponential value `base * 2^k` whenever that value is within
the cap — the jitter magnitude is always ADDED, never subtracted, so the
delay is not symmetric around the exponential value; with jitter factor 0
the delay is exactly `min(base * 2^k, max_delay)`; and every delay the
retry engine actually sleeps obeys the same 0 and `max_delay` bounds. -/
theorem calculate_delay_bounds (c : RetryConfig) (k : Nat) (r : ℚ)
    (hb : 0 ≤ c.base_delay) (hm : 0 ≤ c.max_delay) :
    0 ≤ c.calculate_delay k r ∧
    c.calculate_delay k r ≤ c.max_delay ∧
    (c.base_delay * 2 ^ k ≤ c.max_delay →
        c.base_delay * 2 ^ k ≤ c.calculate_delay k r) ∧
    (c.jitter = 0 →
        c.calculate_delay k r = min (c.base_delay * 2 ^ k) c.max_delay) ∧
    (∀ (α : Type) (op : Nat → Except String α) (rand : Nat → ℚ) (d : ℚ),
        d ∈ (retry_with_backoff c op rand).2 → 0 ≤ d ∧ d ≤ c.max_delay) := by
  have hexp : ∀ j : Nat, 0 ≤ c.base_delay * 2 ^ j := by
    intro j
    positivity
  have hlow : ∀ (j : Nat) (s : ℚ), 0 ≤ c.calculate_delay j s := by
    intro j s
    unfold RetryConfig.calculate_delay
    exact le_min (add_nonneg (hexp j) (abs_nonneg _)) hm
  have hhigh : ∀ (j : Nat) (s : ℚ), c.calculate_delay j s ≤ c.max_delay := by
    intro j s
    unfold RetryConfig.calculate_delay
    exact min_le_right _ _
  refine ⟨hlow k r, hhigh k r, ?_, ?_, ?_⟩
  · intro hcap
    unfold RetryConfig.calculate_delay
    exact le_min (le_add_of_nonneg_right (abs_nonneg _)) hcap
  · intro hj
    unfold RetryConfig.calculate_delay
    simp [hj]
  · intro α op rand d hd
    obtain ⟨i, hi⟩ := retry_loop_delay_mem c op rand c.max_attempts 0 d hd
    rw [hi]
    exact ⟨hlow i (rand i), hhigh i (rand i)⟩

/-- C9 witness: the bounds applied to the default configuration at the first
retry with draw 1/3. -/
theorem calculate_delay_bounds_witness :
    0 ≤ RetryConfig.default.calculate_delay 0 (1/3) ∧
    RetryConfig.default.calculate_delay 0 (1/3) ≤ RetryConfig.default.max_delay :=
  ⟨(calculate_delay_bounds RetryConfig.default 0 (1/3) (by norm_num [RetryConfig.default])
      (by norm_num [RetryConfig.default])).1,
   (calculate_delay_bounds RetryConfig.default 0 (1/3) (by norm_num [RetryConfig.default])
      (by norm_num [RetryConfig.default])).2.1⟩

end Ironclaw
